import Mathlib

/-!
Verification of the decision core of `bestbuy_5090_checker.py`, a single-file
polling stock checker.  The embedding below translates, from the source:

* the three-valued status returned by `check_status` (strings `"sold_out"`,
  `"in_stock"`, `"fail"`), modelled as the inductive `Status`;
* the substring-containment classification of the fetched page text
  (`check_status`, lines 166-171), with Python's `in` operator modelled by the
  executable `contains_substr`;
* the SKU extraction from the target URL (`extract_sku`, lines 137-142) and
  the fallback to `"0000000"` with a warning (lines 144-148);
* the add-to-cart marker construction (line 149);
* the transition/notification logic `handle_status_change` (lines 213-233),
  with the observable side effects of one poll abstracted as an `Action`;
* the dynamic wait-time schedule `get_current_wait_time_seconds`
  (lines 121-132), as a function of the Pacific-local weekday and hour that
  the code reads off `datetime.now(ZoneInfo("America/Los_Angeles"))`;
* the saved-HTML rotation in `check_status` (lines 173-185) together with the
  bounded deque `deque(maxlen=MAX_SAVED_RESPONSES)` built by
  `test_interactive_mode` (line 263).
-/

namespace Checker

/-- The three status values `check_status` can return:
`"sold_out"`, `"in_stock"`, `"fail"`. -/
inductive Status where
  | sold_out
  | in_stock
  | fail
deriving DecidableEq, Repr, Fintype

/-- The externally observable action of one call to `handle_status_change`:
`notify` models `place_call msg` (the change branch for `"in_stock"`),
`logSoldOut` and `logFetchAnomaly` the change-branch log messages for
`"sold_out"` and `"fail"`, and `logNoChange` the no-change branch.
Every constructor except `logNoChange` corresponds to the change branch,
which also appends a `log_state_change` JSON event. -/
inductive Action where
  | notify (message : String)
  | logSoldOut
  | logFetchAnomaly
  | logNoChange
deriving DecidableEq, Repr

/-- `true` exactly on the change branch of `handle_status_change`
(the branch that records a `log_state_change` event). -/
def Action.isChange : Action → Bool
  | .logNoChange => false
  | _ => true

/-- `true` exactly when the action places a call. -/
def Action.isNotify : Action → Bool
  | .notify _ => true
  | _ => false

/-- The message passed to `place_call` on line 224 of the source. -/
def notify_message : String := "Hurry. The 5090 is now in stock at Best Buy."

/-- `handle_status_change(current_status, last_status)` (source lines 213-233).
`last_status` is `none` for the unknown sentinel (Python `None`, the initial
value in both `monitor_mode` and `test_interactive_mode`).  Returns the
observable action together with the updated `last_status` the function
returns. -/
def handle_status_change (current_status : Status) (last_status : Option Status) :
    Action × Option Status :=
  if some current_status ≠ last_status then
    ((match current_status with
      | .in_stock => Action.notify notify_message
      | .sold_out => Action.logSoldOut
      | .fail => Action.logFetchAnomaly),
     some current_status)
  else
    (Action.logNoChange, last_status)

/-- Folding `handle_status_change` over a sequence of polled statuses,
starting from a given `last_status`, collecting the action of every poll
(exactly the per-iteration loop of `monitor_mode` / `test_interactive_mode`,
with fetching and classification abstracted into the input sequence). -/
def run_polls : Option Status → List Status → List Action
  | _, [] => []
  | last, c :: rest =>
    let r := handle_status_change c last
    r.1 :: run_polls r.2 rest

/-- `handle_status_change` always returns the current status as the new
`last_status`: on the change branch it returns `current_status`, and on the
no-change branch it returns `last_status`, which equals `current_status`. -/
theorem handle_status_change_snd (c : Status) (last : Option Status) :
    (handle_status_change c last).2 = some c := by
  unfold handle_status_change
  by_cases h : some c ≠ last
  · simp [h]
  · simp only [ne_eq, not_not] at h
    simp [h]

theorem run_polls_cons (last : Option Status) (c : Status) (rest : List Status) :
    run_polls last (c :: rest) =
      (handle_status_change c last).1 :: run_polls (some c) rest := by
  rw [run_polls, handle_status_change_snd]

/-- The action at position `i+1` of a run depends only on the statuses polled
at positions `i` and `i+1`: the state entering poll `i+1` is the status
observed at poll `i`. -/
theorem run_polls_getElem_succ (l : List Status) (last : Option Status) (i : Nat)
    (p c : Status) (hp : l[i]? = some p) (hc : l[i + 1]? = some c) :
    (run_polls last l)[i + 1]? = some (handle_status_change c (some p)).1 := by
  induction l generalizing last i with
  | nil => simp at hp
  | cons x xs ih =>
    rw [run_polls_cons]
    cases i with
    | zero =>
      simp only [List.getElem?_cons_zero, Option.some.injEq] at hp
      simp only [List.getElem?_cons_succ] at hc
      subst hp
      cases xs with
      | nil => simp at hc
      | cons y ys =>
        simp only [List.getElem?_cons_zero, Option.some.injEq] at hc
        subst hc
        rw [run_polls_cons]
        simp
    | succ j =>
      simp only [List.getElem?_cons_succ] at hp hc
      simp only [List.getElem?_cons_succ]
      exact ih (some x) j hp hc

/-! ### Page classification (`check_status`, lines 166-171) -/

/-- Python's substring test `needle in haystack` on strings, modelled on the
character lists: `true` iff `needle` occurs as a contiguous substring of
`haystack` (the empty needle occurs in every haystack). -/
def contains_substr (haystack needle : List Char) : Bool :=
  match haystack with
  | [] => needle.isEmpty
  | _ :: t => needle.isPrefixOf haystack || contains_substr t needle

/-- `SOLD_OUT_TEXT` (source line 32). -/
def SOLD_OUT_TEXT : String :=
  "This item is currently sold out but we are working to get more inventory."

/-- `ADD_TO_CART_MARKER` (source line 149), as a function of the extracted
SKU string interpolated into the f-string template. -/
def ADD_TO_CART_MARKER (sku : String) : String :=
  "data-sku-id=\"" ++ sku ++ "\" data-button-state=\"ADD_TO_CART\""

/-- The classification core of `check_status` (lines 166-171): sold-out marker
first, then the add-to-cart marker, else `"fail"`. -/
def classify (sku : String) (page_text : String) : Status :=
  if contains_substr page_text.data SOLD_OUT_TEXT.data then
    Status.sold_out
  else if contains_substr page_text.data (ADD_TO_CART_MARKER sku).data then
    Status.in_stock
  else
    Status.fail

/-! ### SKU extraction (lines 137-149) -/

/-- The maximal leading run of decimal digits of a character list
(the `\d+` part of the regex, which matches greedily). -/
def leading_digits : List Char → List Char
  | [] => []
  | c :: t => if c.isDigit then c :: leading_digits t else []

/-- Leftmost match of the regex `skuId=(\d+)` (as `re.search` finds it):
scan left to right for an occurrence of `skuId=` followed by at least one
digit; return the digit group.  An occurrence of `skuId=` followed by a
non-digit does not match, and the scan continues at the next position. -/
def find_sku : List Char → Option String
  | [] => none
  | c :: t =>
    if List.isPrefixOf "skuId=".data (c :: t) then
      match leading_digits ((c :: t).drop 6) with
      | [] => find_sku t
      | d :: ds => some (String.mk (d :: ds))
    else
      find_sku t

/-- `extract_sku(url)` (lines 137-142): the digits of the first
`skuId=<digits>` occurrence, or `None`. -/
def extract_sku (url : String) : Option String :=
  find_sku url.data

/-- The module-level SKU computation (lines 144-148): `extract_sku`
with the `"0000000"` fallback.  The boolean records whether the
configuration warning was logged (`not SKU` is true exactly when
`extract_sku` returned `None`, since a regex group `\d+` is never empty). -/
def compute_sku (check_url : String) : String × Bool :=
  match extract_sku check_url with
  | some s => (s, false)
  | none => ("0000000", true)

/-! ### Fetch boundary (`check_status`, lines 154-191) -/

/-- Outcome of `requests.get(CHECK_URL, headers=HEADERS, timeout=10)`:
either the decoded response text, or a raised exception (network error,
timeout, or anything else), carrying its message `e`. -/
inductive FetchResult where
  | success (text : String)
  | failure (e : String)
deriving DecidableEq, Repr

/-- The status returned by `check_status` (lines 154-191) given the fetch
outcome: any exception is caught by the `try`/`except` and mapped to
`"fail"` (after logging); otherwise the page text is classified. -/
def check_status (sku : String) (fetch : FetchResult) : Status :=
  match fetch with
  | .success text => classify sku text
  | .failure _ => Status.fail

/-! ### Dynamic wait time (`get_current_wait_time_seconds`, lines 121-132) -/

/-- `get_current_wait_time_seconds` (lines 121-132) as a function of the
fields the code reads off `datetime.now(ZoneInfo("America/Los_Angeles"))`:
`weekday` is Python's `weekday()` (Monday = 0, ..., Sunday = 6) and `hour`
the 24-hour local Pacific hour; the DST-aware conversion itself is done by
the `zoneinfo` collaborator.  Weekday < 5 and hour in `[6, 14)` gives 60
seconds, anything else 600. -/
def get_current_wait_time_seconds (weekday hour : Nat) : Nat :=
  if weekday < 5 ∧ 6 ≤ hour ∧ hour < 14 then 60 else 600

/-! ### Saved-HTML rotation (lines 22, 173-185, 263) -/

/-- `MAX_SAVED_RESPONSES` (line 22). -/
def MAX_SAVED_RESPONSES : Nat := 10

/-- Appending to a Python `deque` with a `maxlen` bound: when the new length
would exceed `maxlen`, elements are silently discarded from the left so that
exactly the most recent `maxlen` remain.  `test_interactive_mode`
(line 263) creates the rotation as `deque(maxlen=MAX_SAVED_RESPONSES)`. -/
def deque_append_maxlen (maxlen : Nat) (q : List String) (x : String) :
    List String :=
  let q2 := q ++ [x]
  if maxlen < q2.length then q2.drop (q2.length - maxlen) else q2

/-- The snapshot rotation state: the deque of saved filenames, plus the list
of filenames whose deletion (`os.remove`) `check_status` has requested. -/
structure SnapshotState where
  queue : List String
  deletions : List String
deriving DecidableEq, Repr

/-- One snapshot insertion by `check_status` with `save_html=True`
(lines 173-185): append the new filename to the deque, then, only if the
deque length exceeds `MAX_SAVED_RESPONSES`, pop the oldest filename and
request its deletion with `os.remove`. -/
def snapshot_step (s : SnapshotState) (filename : String) : SnapshotState :=
  let q := deque_append_maxlen MAX_SAVED_RESPONSES s.queue filename
  if MAX_SAVED_RESPONSES < q.length then
    match q with
    | [] => { queue := [], deletions := s.deletions }
    | oldest :: rest => { queue := rest, deletions := s.deletions ++ [oldest] }
  else
    { queue := q, deletions := s.deletions }

/-- Inserting a sequence of snapshot filenames into an initially empty
rotation, as successive `check_status(save_html=True, ...)` calls do. -/
def snapshot_run (files : List String) : SnapshotState :=
  files.foldl snapshot_step { queue := [], deletions := [] }

/-- The poll sequence of claim C1. -/
def c1_sequence : List Status :=
  [Status.sold_out, Status.in_stock, Status.in_stock, Status.sold_out,
   Status.in_stock]

/-- C1 (counterexample): the sequence `[SoldOut, InStock, InStock, SoldOut,
InStock]` fed through `handle_status_change` from the unknown sentinel does
NOT produce exactly 3 change actions: the very first poll
(`sold_out ≠ None`) already takes the change branch, so polls 1, 2, 4 and 5
all produce change actions — 4, not 3. -/
theorem c1_three_changes_false :
    ((run_polls none c1_sequence).countP Action.isChange) ≠ 3 := by
  decide

/-- C1 (amended): the sequence `[SoldOut, InStock, InStock, SoldOut,
InStock]` from the unknown sentinel produces exactly 4 change actions
(polls 1, 2, 4, 5), of which exactly 2 are Notify actions, occurring only at
poll 2 and poll 5. -/
theorem c1_amended_poll_sequence :
    run_polls none c1_sequence =
      [Action.logSoldOut, Action.notify notify_message, Action.logNoChange,
       Action.logSoldOut, Action.notify notify_message] ∧
    (run_polls none c1_sequence).countP Action.isChange = 4 ∧
    (run_polls none c1_sequence).countP Action.isNotify = 2 ∧
    (run_polls none c1_sequence).map Action.isNotify =
      [false, true, false, false, true] := by
  decide

/-- C2 (code evaluated at the failing input): inserting 11 snapshot
filenames into the capacity-10 rotation evicts the oldest filename `"f01"`
from the deque (the `maxlen` bound discards it silently), but NO deletion is
ever requested: the bounded deque caps its own length at 10, so the
`len(saved_files_queue) > MAX_SAVED_RESPONSES` branch containing
`popleft`/`os.remove` is unreachable and the deletions list stays empty. -/
theorem c2_rotation_never_deletes :
    (snapshot_run ["f01", "f02", "f03", "f04", "f05", "f06", "f07", "f08",
        "f09", "f10", "f11"]).queue =
      ["f02", "f03", "f04", "f05", "f06", "f07", "f08", "f09", "f10",
       "f11"] ∧
    (snapshot_run ["f01", "f02", "f03", "f04", "f05", "f06", "f07", "f08",
        "f09", "f10", "f11"]).deletions = [] := by
  decide

/-- C3: across every poll sequence started from the unknown sentinel, a
poll observing `in_stock` whose predecessor also observed `in_stock`
produces `LogNoChange` (so a Notify fires at most once per contiguous run of
`in_stock` observations), while a poll observing `in_stock` whose
predecessor observed anything else produces a Notify (so a transition away
from `in_stock` and back re-notifies). -/
theorem c3_notify_once_per_run (l : List Status) (i : Nat)
    (hcur : l[i + 1]? = some Status.in_stock) :
    (l[i]? = some Status.in_stock →
      (run_polls none l)[i + 1]? = some Action.logNoChange) ∧
    (∀ p, l[i]? = some p → p ≠ Status.in_stock →
      (run_polls none l)[i + 1]? = some (Action.notify notify_message)) := by
  constructor
  · intro hp
    rw [run_polls_getElem_succ l none i Status.in_stock Status.in_stock hp
      hcur]
    simp [handle_status_change]
  · intro p hp hne
    rw [run_polls_getElem_succ l none i p Status.in_stock hp hcur]
    have : some Status.in_stock ≠ some p := by
      simpa using fun h => hne h.symm
    simp [handle_status_change, this]

/-- Witness for C3 at concrete inputs: in `[SoldOut, InStock, InStock]` the
third poll is a repeated `in_stock` and produces `LogNoChange`; in
`[InStock, SoldOut, InStock]` the third poll re-enters `in_stock` and
produces a Notify. -/
theorem c3_notify_once_per_run_witness :
    (run_polls none [Status.sold_out, Status.in_stock,
        Status.in_stock])[2]? = some Action.logNoChange ∧
    (run_polls none [Status.in_stock, Status.sold_out,
        Status.in_stock])[2]? = some (Action.notify notify_message) :=
  ⟨(c3_notify_once_per_run
      [Status.sold_out, Status.in_stock, Status.in_stock] 1 (by decide)).1
      (by decide),
   (c3_notify_once_per_run
      [Status.in_stock, Status.sold_out, Status.in_stock] 1 (by decide)).2
      Status.sold_out (by decide) (by decide)⟩

/-- C4: the case table of `handle_status_change`.  If the current status
equals the last one, the action is `LogNoChange` and the returned last
status is unchanged; otherwise (including the first poll, where the last
status is the unknown sentinel `none`) the returned last status is the
current one and the action is Notify for `in_stock`, `LogSoldOut` for
`sold_out`, and `LogFetchAnomaly` for `fail`. -/
theorem c4_case_table (current : Status) (last : Option Status) :
    (last = some current →
      handle_status_change current last = (Action.logNoChange, last)) ∧
    (last ≠ some current →
      (handle_status_change current last).2 = some current ∧
      (current = Status.in_stock →
        (handle_status_change current last).1 =
          Action.notify notify_message) ∧
      (current = Status.sold_out →
        (handle_status_change current last).1 = Action.logSoldOut) ∧
      (current = Status.fail →
        (handle_status_change current last).1 = Action.logFetchAnomaly)) := by
  revert current last
  decide

/-- Witness for C4 at a concrete input: `onPoll(InStock, SoldOut)` notifies
and sets the last status to `InStock`. -/
theorem c4_case_table_witness :
    (handle_status_change Status.in_stock (some Status.sold_out)).1 =
      Action.notify notify_message ∧
    (handle_status_change Status.in_stock (some Status.sold_out)).2 =
      some Status.in_stock :=
  ⟨((c4_case_table Status.in_stock (some Status.sold_out)).2
      (by decide)).2.1 rfl,
   ((c4_case_table Status.in_stock (some Status.sold_out)).2
      (by decide)).1⟩

/-- C5: any page text containing both the sold-out marker and the
product-specific add-to-cart marker classifies as `sold_out` — the
sold-out containment test is evaluated first. -/
theorem c5_sold_out_wins (sku text : String)
    (hsold : contains_substr text.data SOLD_OUT_TEXT.data = true)
    (_hcart : contains_substr text.data (ADD_TO_CART_MARKER sku).data = true) :
    classify sku text = Status.sold_out := by
  simp [classify, hsold]

/-- Witness for C5 at a concrete input: the concatenation of the sold-out
marker and the add-to-cart marker for SKU `"6614151"` contains both markers
and classifies as `sold_out`. -/
theorem c5_sold_out_wins_witness :
    classify "6614151" (SOLD_OUT_TEXT ++ ADD_TO_CART_MARKER "6614151") =
      Status.sold_out :=
  c5_sold_out_wins "6614151" (SOLD_OUT_TEXT ++ ADD_TO_CART_MARKER "6614151")
    (by decide) (by decide)

/-- C6: any page text containing neither the sold-out marker nor the
add-to-cart marker classifies as `fail`; in particular the empty string is
a valid input and classifies as `fail` for every SKU. -/
theorem c6_neither_marker_fail :
    (∀ sku text : String,
      contains_substr text.data SOLD_OUT_TEXT.data = false →
      contains_substr text.data (ADD_TO_CART_MARKER sku).data = false →
      classify sku text = Status.fail) ∧
    (∀ sku : String, classify sku "" = Status.fail) := by
  constructor
  · intro sku text hs hc
    simp [classify, hs, hc]
  · intro sku
    obtain ⟨l⟩ := sku
    rfl

/-- Witness for C6 at a concrete input: the text `"hello"` contains neither
marker and classifies as `fail`; the empty string classifies as `fail` for
SKU `"6614151"`. -/
theorem c6_neither_marker_fail_witness :
    classify "6614151" "hello" = Status.fail ∧
    classify "6614151" "" = Status.fail :=
  ⟨c6_neither_marker_fail.1 "6614151" "hello" (by decide) (by decide),
   c6_neither_marker_fail.2 "6614151"⟩

/-- C7: the wait-time schedule.  For every Pacific-local weekday
(`weekday()` convention, Monday = 0) and hour, the wait is 60 seconds when
the weekday is Monday-Friday and the hour is in `[6, 14)`, and 600 seconds
otherwise; in particular Tuesday 09:00 gives 60, Saturday 09:00 gives 600,
and Tuesday 15:00 gives 600. -/
theorem c7_wait_time_schedule :
    (∀ weekday hour : Nat,
      (weekday < 5 ∧ 6 ≤ hour ∧ hour < 14 →
        get_current_wait_time_seconds weekday hour = 60) ∧
      (¬(weekday < 5 ∧ 6 ≤ hour ∧ hour < 14) →
        get_current_wait_time_seconds weekday hour = 600)) ∧
    get_current_wait_time_seconds 1 9 = 60 ∧
    get_current_wait_time_seconds 5 9 = 600 ∧
    get_current_wait_time_seconds 1 15 = 600 := by
  refine ⟨fun weekday hour => ⟨fun hc => ?_, fun hc => ?_⟩, by decide,
    by decide, by decide⟩
  · simp [get_current_wait_time_seconds, hc]
  · simp only [get_current_wait_time_seconds, if_neg hc]

/-- Witness for C7 at a concrete input: Tuesday (weekday 1) 09:00 Pacific
gives a 60-second wait, via the general schedule rule. -/
theorem c7_wait_time_schedule_witness :
    get_current_wait_time_seconds 1 9 = 60 :=
  (c7_wait_time_schedule.1 1 9).1 (by decide)

/-- C8: SKU extraction.  The URL `.../product?skuId=6614151&ref=x` yields
the digit string `"6614151"` and hence the marker built from `"6614151"`;
any URL in which no `skuId=<digits>` pattern occurs yields the all-zeros
fallback `"0000000"` together with the logged configuration warning. -/
theorem c8_sku_extraction :
    extract_sku "https://www.bestbuy.com/site/product?skuId=6614151&ref=x" =
      some "6614151" ∧
    compute_sku "https://www.bestbuy.com/site/product?skuId=6614151&ref=x" =
      ("6614151", false) ∧
    ADD_TO_CART_MARKER "6614151" =
      "data-sku-id=\"6614151\" data-button-state=\"ADD_TO_CART\"" ∧
    (∀ url : String, extract_sku url = none →
      compute_sku url = ("0000000", true)) := by
  refine ⟨by decide, by decide, by decide, fun url h => ?_⟩
  simp [compute_sku, h]

/-- Witness for C8 at a concrete input: a URL with no `skuId=<digits>`
pattern degrades to the `"0000000"` fallback with the warning flag set. -/
theorem c8_sku_extraction_witness :
    compute_sku "https://www.bestbuy.com/" = ("0000000", true) :=
  c8_sku_extraction.2.2.2 "https://www.bestbuy.com/" (by decide)

/-- C9: the fetch boundary.  Whatever the fetch outcome — success with any
text, or any raised exception — `check_status` maps every failure to
`fail` and always returns exactly one of the three statuses `sold_out`,
`in_stock`, `fail`. -/
theorem c9_fetch_boundary (sku : String) (fetch : FetchResult) :
    (∀ e, fetch = FetchResult.failure e →
      check_status sku fetch = Status.fail) ∧
    (check_status sku fetch = Status.sold_out ∨
      check_status sku fetch = Status.in_stock ∨
      check_status sku fetch = Status.fail) := by
  constructor
  · intro e he
    subst he
    rfl
  · cases fetch with
    | failure e => exact Or.inr (Or.inr rfl)
    | success text =>
      rcases hc : classify sku text with _ | _ | _
      · exact Or.inl (by simpa [check_status] using hc)
      · exact Or.inr (Or.inl (by simpa [check_status] using hc))
      · exact Or.inr (Or.inr (by simpa [check_status] using hc))

/-- Witness for C9 at a concrete input: a fetch that raised a timeout
exception yields the status `fail`. -/
theorem c9_fetch_boundary_witness :
    check_status "6614151" (FetchResult.failure "timeout") = Status.fail :=
  (c9_fetch_boundary "6614151" (FetchResult.failure "timeout")).1
    "timeout" rfl

/-- C10: sold-out classification is SKU-independent.  For every page text
containing the fixed sold-out marker and every two SKU values, the text
classifies as `sold_out` under both, so classification of such texts is
identical across runs differing only in the extracted SKU. -/
theorem c10_sold_out_sku_independent (sku1 sku2 text : String)
    (h : contains_substr text.data SOLD_OUT_TEXT.data = true) :
    classify sku1 text = Status.sold_out ∧
    classify sku1 text = classify sku2 text := by
  constructor <;> simp [classify, h]

/-- Witness for C10 at a concrete input: the sold-out marker itself
classifies as `sold_out` under the real SKU `"6614151"` and under the
all-zeros fallback `"0000000"` alike. -/
theorem c10_sold_out_sku_independent_witness :
    classify "6614151" SOLD_OUT_TEXT = Status.sold_out ∧
    classify "6614151" SOLD_OUT_TEXT = classify "0000000" SOLD_OUT_TEXT :=
  c10_sold_out_sku_independent "6614151" "0000000" SOLD_OUT_TEXT (by decide)

end Checker
